import Mathlib

/-!
Shallow embedding of `sc_api_tools/http_session/sc_session.py` (class
`SCSession`): an authenticated HTTP session manager for a proxy-gated
service.  Network interaction is modelled by explicit server oracles: the
responses the server would return to the GET/POST/request calls the code
issues.  Python dictionaries (`self.headers`, `self._cookies`) become an
association list and a two-field record; exceptions become explicit outcome
constructors that also carry the mutated session state, because in Python
the object state mutated before a raise persists after it.
-/

namespace SCSessionModel

/-- Constant `CSRF_COOKIE_NAME` from the source. -/
def CSRF_COOKIE_NAME : String := "_oauth2_proxy_csrf"

/-- Constant `PROXY_COOKIE_NAME` from the source. -/
def PROXY_COOKIE_NAME : String := "_oauth2_proxy"

/-- Modelled from the spec: the known API-prefix string exported by the
configuration module (`cluster_config`, not among the given sources).  The
claims do not depend on its concrete value, only on the stripping behaviour. -/
def API_PATTERN : String := "/api/v1.0/"

/-- Modelled from the spec: the external configuration collaborator exposing
`host`, `username`, `password`, `base_url` (its parsing lives in the
`cluster_config` module, out of scope). -/
structure ClusterConfig where
  host : String
  username : String
  password : String
  base_url : String
deriving DecidableEq, Repr

/-- Char-list test: the first list is an initial segment of the second. -/
def chPre : List Char → List Char → Bool
  | [], _ => true
  | _ :: _, [] => false
  | a :: as, b :: bs => a = b && chPre as bs

/-- Char-list test: the first list occurs contiguously inside the second. -/
def chSub (needle : List Char) : List Char → Bool
  | [] => chPre needle []
  | b :: bs => chPre needle (b :: bs) || chSub needle bs

/-- Python `needle in hay` on strings: contiguous substring containment. -/
def pyIn (needle hay : String) : Bool :=
  chSub needle.data hay.data

/-- Python `dict.update({k: v})` on a header mapping kept as an association
list: replace the value in place when the key is present (keys are unique in
every state the code builds), append at the end otherwise. -/
def headersUpdate : List (String × String) → String → String →
    List (String × String)
  | [], k, v => [(k, v)]
  | p :: t, k, v => if p.1 = k then (k, v) :: t else p :: headersUpdate t k v

/-- Python `dict.pop(k, None)`: remove the key when present. -/
def headersPop : List (String × String) → String → List (String × String)
  | [], _ => []
  | p :: t, k => if p.1 = k then headersPop t k else p :: headersPop t k

/-- Python `dict.get(k, None)`: look the key up. -/
def headersGet : List (String × String) → String → Option String
  | [], _ => none
  | p :: t, k => if p.1 = k then some p.2 else headersGet t k

/-- The session cookie dictionary `self._cookies`: it holds exactly the two
well-known entries, both initialised to `None`. -/
structure Cookies where
  csrf : Option String
  proxy : Option String
deriving DecidableEq, Repr

/-- The mutable session state the code manipulates: the header overlay
`self.headers` and the cookie dictionary `self._cookies`. -/
structure SessionState where
  headers : List (String × String)
  cookies : Cookies
deriving DecidableEq, Repr

/-- A minimal JSON value universe for response bodies: enough to express the
error bodies the claims mention (string-field objects and strings). -/
inductive PyJson where
  | str : String → PyJson
  | obj : List (String × String) → PyJson
deriving DecidableEq, Repr

/-- An HTTP response as the code observes it: status, the `Content-Type`
header (`headers.get("Content-Type")`), the two cookies the code ever reads
from a response, the JSON body (`none` when `response.json()` would raise
`JSONDecodeError`), and the response URL. -/
structure Response where
  status_code : Nat
  contentType : Option String
  csrfCookie : Option String
  proxyCookie : Option String
  jsonBody : Option PyJson
  url : String
deriving DecidableEq, Repr

/-- The response to the credential-submission POST (sent with
`allow_redirects=True`): the final response together with its redirect
history, oldest hop first, the final response not included in the history. -/
structure PostResponse where
  resp : Response
  history : List Response
deriving DecidableEq, Repr

/-- The server behaviour `authenticate()` interacts with: the response to the
initial `GET {host}/user/login`, the successive responses returned to the
redirect-chase GETs, and the response to the credential POST.  Transport-level
failures (`ConnectionError`) are outside the model: the server always
responds. -/
structure LoginServer where
  loginResponse : Response
  hops : List Response
  postResponse : PostResponse
deriving DecidableEq, Repr

/-- One step of CSRF-cookie harvesting, lines 62-64 of the source:
`proxy_csrf = redirected.cookies.get(CSRF_COOKIE_NAME, None)` followed by a
truthiness test, so `None` and the empty string both leave the stored cookie
unchanged. -/
def csrfStep (c : Option String) (r : Response) : Option String :=
  match r.csrfCookie with
  | some v => if v = "" then c else some v
  | none => c

/-- Method `_follow_login_redirects`: while the status is 302 or 303, fetch the next
hop, harvest its CSRF cookie, recurse.  Returns the final URL, the updated
cookies and the number of redirects followed; `none` when the modelled hop
list is exhausted while the status still redirects (the unbounded recursion
of the source has no modelled response left to consume). -/
def followLoginRedirects (cookies : Cookies) (response : Response)
    (hops : List Response) : Option (String × Cookies × Nat) :=
  if response.status_code = 302 ∨ response.status_code = 303 then
    match hops with
    | [] => none
    | redirected :: rest =>
      let cookies2 : Cookies :=
        { cookies with csrf := csrfStep cookies.csrf redirected }
      match followLoginRedirects cookies2 redirected rest with
      | some (u, cs, n) => some (u, cs, n + 1)
      | none => none
  else
    some (response.url, cookies, 0)

/-- The typed login failure: the `ValueError` raised when the POST response
has an empty redirect history (the `IndexError` branch, lines 110-116). -/
inductive AuthError where
  | loginRejected
deriving DecidableEq, Repr

/-- Result of a run of `authenticate()`: the error raised, if any, together
with the session state as the run left it (Python keeps mutations made
before a raise). -/
structure AuthOutcome where
  err : Option AuthError
  state : SessionState
deriving DecidableEq, Repr

/-- Method `authenticate()` (lines 79-122): probe the login page, chase redirects,
clear the header overlay and install the form-urlencoded `Content-Type`,
POST the credentials, then read the proxy cookie off `response.history[-1]`
and store it (even when it is `None`).  Returns `none` when the redirect
chase exhausts the modelled hop list. -/
def authenticate (s : SessionState) (srv : LoginServer) : Option AuthOutcome :=
  match followLoginRedirects s.cookies srv.loginResponse srv.hops with
  | none => none
  | some (_loginPath, cookies1, _hopCount) =>
    let headers1 := headersUpdate []
      "Content-Type" "application/x-www-form-urlencoded"
    let s1 : SessionState := { headers := headers1, cookies := cookies1 }
    let response := srv.postResponse
    match response.history.getLast? with
    | none => some { err := some AuthError.loginRejected, state := s1 }
    | some previous =>
      some { err := none,
             state := { s1 with
               cookies := { cookies1 with proxy := previous.proxyCookie } } }

/-- Lines 138-147: the `contenttype` string selects the `Content-Type`
header mutation; an unrecognized string falls through the `elif` chain and
leaves the overlay untouched. -/
def setContentTypeHeaders (hs : List (String × String)) (contenttype : String) :
    List (String × String) :=
  if contenttype = "json" then
    headersUpdate hs "Content-Type" "application/json"
  else if contenttype = "jpeg" then
    headersUpdate hs "Content-Type" "image/jpeg"
  else if contenttype = "multipart" then
    headersPop hs "Content-Type"
  else if contenttype = "" then
    headersPop hs "Content-Type"
  else if contenttype = "zip" then
    headersUpdate hs "Content-Type" "application/zip"
  else
    hs

/-- Lines 164-167: the response signals an expired session when its status is
401 or 403 or when `"text/html" in response.headers.get("Content-Type", [])`;
with the header absent the Python default `[]` makes the test `False`. -/
def expirySignal (response : Response) : Bool :=
  (response.status_code == 401 || response.status_code == 403)
    || (match response.contentType with
        | some ct => pyIn "text/html" ct
        | none => false)

/-- What `get_rest_response` hands back to the caller, raises included. -/
inductive RestResult where
  /-- Status 200/201 with declared `Content-Type: application/json`: the
  decoded JSON body is returned. -/
  | jsonResult (j : PyJson)
  /-- Status 200/201 with any other declared content type: the raw response
  object is returned. -/
  | rawResult (r : Response)
  /-- Lines 174-179: final status outside 200/201 raises
  `ValueError(method, url, data, status_code)`; `body = none` encodes the
  empty string substituted when decoding the error body fails. -/
  | requestFailure (method url : String) (body : Option PyJson) (status : Nat)
  /-- Status 200/201 declared as JSON but `response.json()` raises: the
  `JSONDecodeError` propagates uncaught. -/
  | jsonDecodeError
  /-- The nested `authenticate()` raised; the error propagates. -/
  | authFailure (e : AuthError)
  /-- The nested `authenticate()` exhausted the modelled hop list. -/
  | serverModelExhausted
deriving DecidableEq, Repr

/-- Lines 174-186: classify the final response — raise on a status outside
200/201 (decoding the error body, substituting the empty body on decode
failure), decode JSON when so declared, return the raw response otherwise. -/
def classifyResponse (method url : String) (response : Response) : RestResult :=
  if response.status_code = 200 ∨ response.status_code = 201 then
    if response.contentType = some "application/json" then
      match response.jsonBody with
      | some j => RestResult.jsonResult j
      | none => RestResult.jsonDecodeError
    else
      RestResult.rawResult response
  else
    RestResult.requestFailure method url response.jsonBody response.status_code

/-- An outgoing `self.request(**request_params)` as the server sees it: the
fixed request parameters plus the session headers and cookie dictionary in
force at send time (the cookie dictionary is passed by reference in Python,
so a retry observes mutations made by `authenticate()`). -/
structure SentReq where
  method : String
  url : String
  dataIsJson : Bool
  headers : List (String × String)
  cookies : Cookies
deriving DecidableEq, Repr

/-- A full run of `get_rest_response`: the value returned or error raised,
the final session state, how many times `authenticate()` was invoked, and
the requests sent, in order. -/
structure DispatchOutcome where
  result : RestResult
  state : SessionState
  authCalls : Nat
  sent : List SentReq
deriving DecidableEq, Repr

/-- Method `get_rest_response` (lines 124-186): strip the API prefix, select the
`Content-Type` header, send; on an expiry signal re-authenticate once and
resend the identical request parameters once; classify whatever response is
then current.  `firstResponse` and `retryResponse` are the responses the
server returns to the first and (when issued) second `self.request`. -/
def get_rest_response (s : SessionState) (cfg : ClusterConfig)
    (srv : LoginServer) (firstResponse retryResponse : Response)
    (url method contenttype : String) : DispatchOutcome :=
  let url1 :=
    if url.startsWith API_PATTERN then url.drop API_PATTERN.length else url
  let headers1 := setContentTypeHeaders s.headers contenttype
  let s1 : SessionState := { s with headers := headers1 }
  let requesturl := cfg.base_url ++ url1
  let dataIsJson := contenttype == "json"
  let req1 : SentReq :=
    { method := method, url := requesturl, dataIsJson := dataIsJson,
      headers := s1.headers, cookies := s1.cookies }
  if expirySignal firstResponse then
    match authenticate s1 srv with
    | none =>
      { result := RestResult.serverModelExhausted, state := s1,
        authCalls := 1, sent := [req1] }
    | some outcome =>
      match outcome.err with
      | some e =>
        { result := RestResult.authFailure e, state := outcome.state,
          authCalls := 1, sent := [req1] }
      | none =>
        let s2 := outcome.state
        let req2 : SentReq :=
          { method := method, url := requesturl, dataIsJson := dataIsJson,
            headers := s2.headers, cookies := s2.cookies }
        { result := classifyResponse method url1 retryResponse, state := s2,
          authCalls := 1, sent := [req1, req2] }
  else
    { result := classifyResponse method url1 firstResponse, state := s1,
      authCalls := 0, sent := [req1] }

/-- Outcome of `__init__` (lines 18-49): the two `ValueError` raises over the
host string, or the state built (after an eager `authenticate()` when the
host contains `"https"`). -/
inductive InitOutcome where
  /-- Raised `ValueError`: non-encrypted host without exactly two colons
  (missing port number). -/
  | noPortError
  /-- Raised `ValueError`: host containing neither `"https"` nor `"http:"`
  (missing protocol). -/
  | noSchemeError
  /-- The eager `authenticate()` raised; construction fails with that error,
  the state carrying the mutations made before the raise. -/
  | authRejected (s : SessionState)
  /-- The eager `authenticate()` exhausted the modelled hop list. -/
  | modelExhausted
  /-- Construction succeeded. -/
  | ok (s : SessionState)
deriving DecidableEq, Repr

/-- The fresh state set up by `__init__` before the host dispatch: header
overlay holding `Connection: keep-alive`, both cookies unset.  (Default
headers inherited from the underlying HTTP client are not modelled; the code
never reads them.) -/
def initialState : SessionState :=
  { headers := headersUpdate [] "Connection" "keep-alive",
    cookies := { csrf := none, proxy := none } }

/-- Constructor `__init__` (lines 18-49): build the fresh state, then dispatch on the
host string by Python substring containment — `"https" in host` triggers the
eager `authenticate()`, otherwise `"http:" in host` triggers the
colon-count-equals-two port check, otherwise the missing-protocol raise. -/
def initSession (cfg : ClusterConfig) (srv : LoginServer) : InitOutcome :=
  let s0 := initialState
  if pyIn "https" cfg.host then
    match authenticate s0 srv with
    | none => InitOutcome.modelExhausted
    | some outcome =>
      match outcome.err with
      | some _ => InitOutcome.authRejected outcome.state
      | none => InitOutcome.ok outcome.state
  else if pyIn "http:" cfg.host then
    if (cfg.host.data.filter (fun c => c = ':')).length ≠ 2 then
      InitOutcome.noPortError
    else
      InitOutcome.ok s0
  else
    InitOutcome.noSchemeError

/-- Construction failed with one of the two host-validation errors
(the `ConfigError` taxonomy of the spec). -/
def isConfigError : InitOutcome → Bool
  | InitOutcome.noPortError => true
  | InitOutcome.noSchemeError => true
  | _ => false

/-- A success body was returned to the caller (decoded JSON or the raw
response), as opposed to a raise. -/
def isSuccessBody : RestResult → Bool
  | RestResult.jsonResult _ => true
  | RestResult.rawResult _ => true
  | _ => false

/-! Concrete inputs used by witnesses and counterexamples. -/

/-- The header overlay in force right after lines 99-100 of
`authenticate()`: the cleared dictionary updated with the login
`Content-Type`. -/
def loginHeaders : List (String × String) :=
  [("Content-Type", "application/x-www-form-urlencoded")]

/-- A non-redirect login-page response: the chase stops immediately. -/
def loginPage200 : Response :=
  { status_code := 200, contentType := none, csrfCookie := none,
    proxyCookie := none, jsonBody := none, url := "https://host/authsvc/login" }

/-- An early redirect hop of the POST history, carrying an older proxy
cookie. -/
def hopA : Response :=
  { status_code := 302, contentType := none, csrfCookie := none,
    proxyCookie := some "older", jsonBody := none, url := "https://host/hopA" }

/-- The second-to-last response of the POST redirect chain, carrying the
proxy cookie that gets stored. -/
def prevHop : Response :=
  { status_code := 302, contentType := none, csrfCookie := none,
    proxyCookie := some "ptok", jsonBody := none, url := "https://host/hopB" }

/-- The final response of the credential POST; it carries a different proxy
cookie than the second-to-last hop, which the code ignores. -/
def finalPost : Response :=
  { status_code := 200, contentType := some "text/html", csrfCookie := none,
    proxyCookie := some "final-cookie", jsonBody := none,
    url := "https://host/home" }

/-- A server on which `authenticate()` succeeds: no redirect chase, a
two-hop POST history ending in `prevHop`. -/
def srvOk : LoginServer :=
  { loginResponse := loginPage200, hops := [],
    postResponse := { resp := finalPost, history := [hopA, prevHop] } }

/-- A hop carrying no proxy cookie at all. -/
def prevNone : Response :=
  { status_code := 302, contentType := none, csrfCookie := none,
    proxyCookie := none, jsonBody := none, url := "https://host/hopN" }

/-- A server on which `authenticate()` succeeds but the second-to-last hop
carries no proxy cookie. -/
def srvNoProxy : LoginServer :=
  { loginResponse := loginPage200, hops := [],
    postResponse := { resp := finalPost, history := [prevNone] } }

/-- A server whose login probe redirects once through a hop that sets the
CSRF cookie, and whose credential POST comes back with an empty redirect
history (credentials rejected). -/
def srvReject : LoginServer :=
  { loginResponse :=
      { status_code := 302, contentType := none, csrfCookie := none,
        proxyCookie := none, jsonBody := none, url := "https://host/start" },
    hops :=
      [{ status_code := 200, contentType := none, csrfCookie := some "abc",
         proxyCookie := none, jsonBody := none,
         url := "https://host/authsvc/login" }],
    postResponse := { resp := finalPost, history := [] } }

/-- First response of the redirect-chase witness chain (a 302). -/
def c4first : Response :=
  { status_code := 302, contentType := none, csrfCookie := none,
    proxyCookie := none, jsonBody := none, url := "https://host/r0" }

/-- Middle hop of the chase witness chain: a 303 carrying the CSRF cookie. -/
def c4mid : Response :=
  { status_code := 303, contentType := none, csrfCookie := some "tok",
    proxyCookie := none, jsonBody := none, url := "https://host/r1" }

/-- Final hop of the chase witness chain: a 200 without the CSRF cookie. -/
def c4last : Response :=
  { status_code := 200, contentType := none, csrfCookie := none,
    proxyCookie := none, jsonBody := none, url := "https://host/authsvc/login" }

/-- Configuration used by dispatcher witnesses. -/
def cfgW : ClusterConfig :=
  { host := "https://host", username := "user", password := "pass",
    base_url := "https://host/api/v1.0/" }

/-- A 403 first response: triggers the expiry signal. -/
def resp403 : Response :=
  { status_code := 403, contentType := none, csrfCookie := none,
    proxyCookie := none, jsonBody := none, url := "https://host/r" }

/-- A 200 JSON retry response. -/
def resp200json : Response :=
  { status_code := 200, contentType := some "application/json",
    csrfCookie := none, proxyCookie := none,
    jsonBody := some (PyJson.obj [("k", "v")]), url := "https://host/r" }

/-- A 500 response with a decodable JSON error body. -/
def resp500detail : Response :=
  { status_code := 500, contentType := some "application/json",
    csrfCookie := none, proxyCookie := none,
    jsonBody := some (PyJson.obj [("detail", "x")]), url := "https://host/r" }

/-- A schemeless host string that nonetheless contains `"https"` as a
substring. -/
def c6cfg : ClusterConfig :=
  { host := "foohttpsbar", username := "u", password := "p",
    base_url := "https://b/api/v1.0/" }

/-- A host with no recognisable scheme substring at all. -/
def c6cfgNone : ClusterConfig :=
  { host := "nakedhost", username := "u", password := "p",
    base_url := "b" }

/-- A non-encrypted host missing its port (one colon only). -/
def c6cfgNoPort : ClusterConfig :=
  { host := "http://10.0.0.1", username := "u", password := "p",
    base_url := "b" }

/-- A well-formed non-encrypted host carrying its port (exactly two
colons): construction must not fail. -/
def c6cfgPort : ClusterConfig :=
  { host := "http://10.0.0.1:5001", username := "u", password := "p",
    base_url := "b" }

/-! Helper lemmas about the header dictionary. -/

/-- Updating one key leaves lookups of every other key unchanged. -/
theorem headersGet_update_ne (hs : List (String × String)) (k v k' : String)
    (h : k' ≠ k) : headersGet (headersUpdate hs k v) k' = headersGet hs k' := by
  induction hs with
  | nil => simp [headersUpdate, headersGet, Ne.symm h]
  | cons p t ih =>
    by_cases hp : p.1 = k
    · simp [headersUpdate, headersGet, hp, h, Ne.symm h]
    · simp only [headersUpdate, hp, if_false, headersGet]
      by_cases hp' : p.1 = k'
      · simp [headersGet, hp']
      · simp [headersGet, hp', ih]

/-- Removing one key leaves lookups of every other key unchanged. -/
theorem headersGet_pop_ne (hs : List (String × String)) (k k' : String)
    (h : k' ≠ k) : headersGet (headersPop hs k) k' = headersGet hs k' := by
  induction hs with
  | nil => simp [headersPop]
  | cons p t ih =>
    by_cases hp : p.1 = k
    · simp [headersPop, headersGet, hp, Ne.symm h, ih]
    · by_cases hp' : p.1 = k'
      · simp [headersPop, headersGet, hp, hp', h]
      · simp [headersPop, headersGet, hp, hp', ih]

/-- The content-type dispatch of lines 138-147 never touches headers other
than `Content-Type`; in particular the `Connection` entry is preserved. -/
theorem setContentTypeHeaders_connection (hs : List (String × String))
    (ct : String) :
    headersGet (setContentTypeHeaders hs ct) "Connection" =
      headersGet hs "Connection" := by
  have hne : "Connection" ≠ "Content-Type" := by decide
  unfold setContentTypeHeaders
  split
  · exact headersGet_update_ne hs _ _ _ hne
  · split
    · exact headersGet_update_ne hs _ _ _ hne
    · split
      · exact headersGet_pop_ne hs _ _ hne
      · split
        · exact headersGet_pop_ne hs _ _ hne
        · split
          · exact headersGet_update_ne hs _ _ _ hne
          · rfl

/-! Helper lemmas about the redirect chase. -/

/-- The chase stops at once on a non-redirect status, returning the URL of
the current response, the cookies unchanged and a hop count of zero. -/
theorem chase_stop (cs : Cookies) (r : Response) (hops : List Response)
    (h : ¬(r.status_code = 302 ∨ r.status_code = 303)) :
    followLoginRedirects cs r hops = some (r.url, cs, 0) := by
  rw [followLoginRedirects.eq_def]
  rw [if_neg h]

/-- One step of the chase on a redirect status: fetch the next hop, harvest
its CSRF cookie, recurse, and count one more redirect followed. -/
theorem chase_step (cs : Cookies) (r hd : Response) (rest : List Response)
    (h : r.status_code = 302 ∨ r.status_code = 303) :
    followLoginRedirects cs r (hd :: rest) =
      match followLoginRedirects
          { cs with csrf := csrfStep cs.csrf hd } hd rest with
      | some (u, cs2, n) => some (u, cs2, n + 1)
      | none => none := by
  conv_lhs => rw [followLoginRedirects.eq_def]
  rw [if_pos h]

/-- A redirect status with no modelled hop left makes the chase diverge from
the model (`none`). -/
theorem chase_nil (cs : Cookies) (r : Response)
    (h : r.status_code = 302 ∨ r.status_code = 303) :
    followLoginRedirects cs r [] = none := by
  rw [followLoginRedirects.eq_def]
  rw [if_pos h]

/-- The chase never writes the proxy cookie. -/
theorem chase_proxy :
    ∀ (hops : List Response) (cs : Cookies) (r : Response) (u : String)
      (cs2 : Cookies) (n : Nat),
      followLoginRedirects cs r hops = some (u, cs2, n) →
      cs2.proxy = cs.proxy := by
  intro hops
  induction hops with
  | nil =>
    intro cs r u cs2 n h
    by_cases hr : r.status_code = 302 ∨ r.status_code = 303
    · rw [chase_nil cs r hr] at h
      cases h
    · rw [chase_stop cs r [] hr] at h
      simp only [Option.some.injEq, Prod.mk.injEq] at h
      rw [← h.2.1]
  | cons hd rest ih =>
    intro cs r u cs2 n h
    by_cases hr : r.status_code = 302 ∨ r.status_code = 303
    · rw [chase_step cs r hd rest hr] at h
      cases hinner : followLoginRedirects
          { cs with csrf := csrfStep cs.csrf hd } hd rest with
      | none => rw [hinner] at h; cases h
      | some val =>
        obtain ⟨u1, cs1, n1⟩ := val
        rw [hinner] at h
        simp only [Option.some.injEq, Prod.mk.injEq] at h
        have hp := ih _ hd u1 cs1 n1 hinner
        rw [← h.2.1]
        exact hp
    · rw [chase_stop cs r _ hr] at h
      simp only [Option.some.injEq, Prod.mk.injEq] at h
      rw [← h.2.1]

/-- The URL reached, the success of the chase and the number of hops
followed do not depend on the cookies it starts from: only the harvested
CSRF value does. -/
theorem chase_cookies_gen :
    ∀ (hops : List Response) (cs cs' : Cookies) (r : Response) (u : String)
      (c : Cookies) (n : Nat),
      followLoginRedirects cs r hops = some (u, c, n) →
      ∃ c2, followLoginRedirects cs' r hops = some (u, c2, n) := by
  intro hops
  induction hops with
  | nil =>
    intro cs cs' r u c n h
    by_cases hr : r.status_code = 302 ∨ r.status_code = 303
    · rw [chase_nil cs r hr] at h
      cases h
    · rw [chase_stop cs r [] hr] at h
      simp only [Option.some.injEq, Prod.mk.injEq] at h
      exact ⟨cs', by rw [chase_stop cs' r [] hr, h.1, ← h.2.2]⟩
  | cons hd rest ih =>
    intro cs cs' r u c n h
    by_cases hr : r.status_code = 302 ∨ r.status_code = 303
    · rw [chase_step cs r hd rest hr] at h
      cases hinner : followLoginRedirects
          { cs with csrf := csrfStep cs.csrf hd } hd rest with
      | none => rw [hinner] at h; cases h
      | some val =>
        obtain ⟨u1, cs1, n1⟩ := val
        rw [hinner] at h
        simp only [Option.some.injEq, Prod.mk.injEq] at h
        obtain ⟨c2, hc2⟩ := ih _ { cs' with csrf := csrfStep cs'.csrf hd }
          hd u1 cs1 n1 hinner
        refine ⟨c2, ?_⟩
        rw [chase_step cs' r hd rest hr, hc2, h.1, ← h.2.2]
    · rw [chase_stop cs r _ hr] at h
      simp only [Option.some.injEq, Prod.mk.injEq] at h
      exact ⟨cs', by rw [chase_stop cs' r _ hr, h.1, ← h.2.2]⟩

/-! Helper lemmas about `authenticate()`. -/

/-- Given a successful redirect chase, `authenticate()` is determined by the
redirect history of the POST: an empty history raises the login rejection
with the cookies as the chase left them, a non-empty history stores the
proxy cookie of its last element.  In both cases the header overlay has been
cleared and replaced by the login `Content-Type`. -/
theorem authenticate_of_chase (s : SessionState) (srv : LoginServer)
    (u : String) (cs : Cookies) (n : Nat)
    (hc : followLoginRedirects s.cookies srv.loginResponse srv.hops
      = some (u, cs, n)) :
    authenticate s srv =
      match srv.postResponse.history.getLast? with
      | none =>
        some { err := some AuthError.loginRejected,
               state := { headers := loginHeaders, cookies := cs } }
      | some previous =>
        some { err := none,
               state := { headers := loginHeaders,
                          cookies := { cs with proxy := previous.proxyCookie } } } := by
  unfold authenticate
  rw [hc]
  cases hist : srv.postResponse.history.getLast? <;>
    simp [hist, loginHeaders, headersUpdate]

/-- A run of `authenticate()` that produced an outcome had a successful
redirect chase. -/
theorem authenticate_some_chase (s : SessionState) (srv : LoginServer)
    (o : AuthOutcome) (h : authenticate s srv = some o) :
    ∃ u cs n, followLoginRedirects s.cookies srv.loginResponse srv.hops
      = some (u, cs, n) := by
  cases hc : followLoginRedirects s.cookies srv.loginResponse srv.hops with
  | none =>
    unfold authenticate at h
    rw [hc] at h
    cases h
  | some val =>
    obtain ⟨u, cs, n⟩ := val
    exact ⟨u, cs, n, rfl⟩

/-- C5: for every run of `authenticate()` whose credential-submission
response has a non-empty redirect history (equivalently, every run that does
not raise), the proxy session cookie stored in the session cookies is the
one carried by the second-to-last response of the redirect chain — the
element preceding the final redirect target — and not by the final response
itself: the stored value is read off the history alone. -/
theorem proxy_cookie_from_second_to_last (s : SessionState)
    (srv : LoginServer) (o : AuthOutcome)
    (hA : authenticate s srv = some o) (hE : o.err = none) :
    ((srv.postResponse.history ++ [srv.postResponse.resp]).dropLast.getLast?).map
        (fun prev => prev.proxyCookie)
      = some o.state.cookies.proxy := by
  obtain ⟨u, cs, n, hc⟩ := authenticate_some_chase s srv o hA
  rw [authenticate_of_chase s srv u cs n hc] at hA
  have hdrop : (srv.postResponse.history ++ [srv.postResponse.resp]).dropLast
      = srv.postResponse.history := by
    simp
  rw [hdrop]
  cases hist : srv.postResponse.history.getLast? with
  | none =>
    rw [hist] at hA
    simp only [Option.some.injEq] at hA
    rw [← hA] at hE
    cases hE
  | some prev =>
    rw [hist] at hA
    simp only [Option.some.injEq] at hA
    rw [← hA]
    rfl

/-- Witness for C5: on the concrete server `srvOk` the stored proxy cookie
is the one of `prevHop`, the second-to-last response of the chain, not the
`"final-cookie"` carried by the final response. -/
theorem proxy_cookie_from_second_to_last_witness :
    (authenticate initialState srvOk =
      some { err := none,
             state := { headers := loginHeaders,
                        cookies := { csrf := none, proxy := some "ptok" } } }) ∧
    ((srvOk.postResponse.history ++ [srvOk.postResponse.resp]).dropLast.getLast?).map
        (fun prev => prev.proxyCookie)
      = some (AuthOutcome.mk none
          ⟨loginHeaders, ⟨none, some "ptok"⟩⟩).state.cookies.proxy :=
  ⟨by decide,
   proxy_cookie_from_second_to_last initialState srvOk
     ⟨none, ⟨loginHeaders, ⟨none, some "ptok"⟩⟩⟩ (by decide) (by decide)⟩

/-- C10: a run of `authenticate()` in which the second-to-last response of
the redirect chain carries no proxy session cookie still completes without
error, storing the unset value as the proxy cookie: success of
`authenticate()` does not guarantee an authenticated session. -/
theorem authenticate_success_without_proxy_cookie (s : SessionState)
    (srv : LoginServer) (o : AuthOutcome) (prev : Response)
    (hA : authenticate s srv = some o)
    (hH : srv.postResponse.history.getLast? = some prev)
    (hP : prev.proxyCookie = none) :
    o.err = none ∧ o.state.cookies.proxy = none := by
  obtain ⟨u, cs, n, hc⟩ := authenticate_some_chase s srv o hA
  rw [authenticate_of_chase s srv u cs n hc, hH] at hA
  simp only [Option.some.injEq] at hA
  rw [← hA]
  exact ⟨rfl, hP⟩

/-- Witness for C10: on `srvNoProxy` the single history entry carries no
proxy cookie, yet `authenticate()` reports no error and stores `none`. -/
theorem authenticate_success_without_proxy_cookie_witness :
    (authenticate initialState srvNoProxy =
      some { err := none,
             state := { headers := loginHeaders,
                        cookies := { csrf := none, proxy := none } } }) ∧
    (srvNoProxy.postResponse.history.getLast? = some prevNone) ∧
    prevNone.proxyCookie = none ∧
    ((AuthOutcome.mk none ⟨loginHeaders, ⟨none, none⟩⟩).err = none ∧
      (AuthOutcome.mk none
        ⟨loginHeaders, ⟨none, none⟩⟩).state.cookies.proxy = none) :=
  ⟨by decide, by decide, by decide,
   authenticate_success_without_proxy_cookie initialState srvNoProxy
     ⟨none, ⟨loginHeaders, ⟨none, none⟩⟩⟩ prevNone
     (by decide) (by decide) (by decide)⟩

/-- Counterexample to C3 as stated: on `srvReject` the credential submission
comes back with an empty redirect history, so `authenticate()` raises the
login rejection — but the CSRF cookie does not remain unset: the redirect
chase already stored the value `"abc"` harvested from the hop, and that
mutation survives the raise. -/
theorem login_rejected_csrf_not_unset :
    (authenticate initialState srvReject).map
        (fun o => (o.err, o.state.cookies.csrf))
      = some (some AuthError.loginRejected, some "abc") ∧
    (some "abc" : Option String) ≠ none := by
  constructor
  · decide
  · decide

/-- C3 as amended: when the credential-submission response has an empty
redirect history, `authenticate()` fails with the login rejection and the
proxy session cookie is left exactly as it was (so it remains unset whenever
it was unset before); the CSRF cookie, however, keeps whatever value the
redirect chase stored before the failure. -/
theorem login_rejected_leaves_proxy_unset (s : SessionState)
    (srv : LoginServer) (o : AuthOutcome)
    (hA : authenticate s srv = some o)
    (hH : srv.postResponse.history = []) :
    o.err = some AuthError.loginRejected ∧
    o.state.cookies.proxy = s.cookies.proxy := by
  obtain ⟨u, cs, n, hc⟩ := authenticate_some_chase s srv o hA
  rw [authenticate_of_chase s srv u cs n hc, hH] at hA
  simp only [List.getLast?_nil, Option.some.injEq] at hA
  rw [← hA]
  exact ⟨rfl, chase_proxy srv.hops s.cookies srv.loginResponse u cs n hc⟩

/-- Witness for the amended C3: on `srvReject` the run fails with the login
rejection and the proxy cookie is unchanged (still unset). -/
theorem login_rejected_leaves_proxy_unset_witness :
    (authenticate initialState srvReject =
      some { err := some AuthError.loginRejected,
             state := { headers := loginHeaders,
                        cookies := { csrf := some "abc", proxy := none } } }) ∧
    (srvReject.postResponse.history = ([] : List Response)) ∧
    ((AuthOutcome.mk (some AuthError.loginRejected)
        ⟨loginHeaders, ⟨some "abc", none⟩⟩).err
        = some AuthError.loginRejected ∧
      (AuthOutcome.mk (some AuthError.loginRejected)
        ⟨loginHeaders, ⟨some "abc", none⟩⟩).state.cookies.proxy
        = initialState.cookies.proxy) :=
  ⟨by decide, by decide,
   login_rejected_leaves_proxy_unset initialState srvReject
     ⟨some AuthError.loginRejected, ⟨loginHeaders, ⟨some "abc", none⟩⟩⟩
     (by decide) (by decide)⟩

/-- C8: `authenticate()` is idempotent with respect to the proxy cookie —
a second run against the same (unchanged) server state succeeds as well and
stores the same final proxy-cookie value as the first. -/
theorem authenticate_idempotent_proxy (s : SessionState) (srv : LoginServer)
    (o1 : AuthOutcome) (hA : authenticate s srv = some o1)
    (hE : o1.err = none) :
    ∃ o2, authenticate o1.state srv = some o2 ∧ o2.err = none ∧
      o2.state.cookies.proxy = o1.state.cookies.proxy := by
  obtain ⟨u, cs, n, hc⟩ := authenticate_some_chase s srv o1 hA
  obtain ⟨cs2, hc2⟩ := chase_cookies_gen srv.hops s.cookies o1.state.cookies
    srv.loginResponse u cs n hc
  rw [authenticate_of_chase s srv u cs n hc] at hA
  cases hist : srv.postResponse.history.getLast? with
  | none =>
    rw [hist] at hA
    simp only [Option.some.injEq] at hA
    rw [← hA] at hE
    cases hE
  | some prev =>
    rw [hist] at hA
    simp only [Option.some.injEq] at hA
    refine ⟨_, by rw [authenticate_of_chase o1.state srv u cs2 n hc2, hist],
      rfl, ?_⟩
    rw [← hA]

/-- Witness for C8: two successive runs of `authenticate()` against `srvOk`
both store the proxy cookie `"ptok"`. -/
theorem authenticate_idempotent_proxy_witness :
    (authenticate initialState srvOk =
      some { err := none,
             state := { headers := loginHeaders,
                        cookies := { csrf := none, proxy := some "ptok" } } }) ∧
    (∃ o2, authenticate (AuthOutcome.mk none
          ⟨loginHeaders, ⟨none, some "ptok"⟩⟩).state srvOk
        = some o2 ∧ o2.err = none ∧
      o2.state.cookies.proxy = (AuthOutcome.mk none
          ⟨loginHeaders, ⟨none, some "ptok"⟩⟩).state.cookies.proxy) :=
  ⟨by decide,
   authenticate_idempotent_proxy initialState srvOk
     ⟨none, ⟨loginHeaders, ⟨none, some "ptok"⟩⟩⟩ (by decide) (by decide)⟩

/-- C4: for every finite response chain whose first responses all carry
redirect status 302 or 303 and whose last response does not, the redirect
chase terminates after following exactly those redirects (the hop count
equals the number of redirect responses), returns the URL of the final
non-redirect response, and leaves the stored CSRF cookie equal to the left
fold of the harvesting step over the fetched hops: the last hop that carried
a non-empty CSRF cookie wins, and hops without one do not erase it.  The
first conjunct covers the degenerate chain with no redirect at all. -/
theorem redirect_chase_chain :
    (∀ (cookies : Cookies) (first : Response) (hops : List Response),
        ¬(first.status_code = 302 ∨ first.status_code = 303) →
        followLoginRedirects cookies first hops
          = some (first.url, cookies, 0)) ∧
    (∀ (cookies : Cookies) (first last : Response) (pre : List Response),
        (first.status_code = 302 ∨ first.status_code = 303) →
        (∀ r ∈ pre, r.status_code = 302 ∨ r.status_code = 303) →
        ¬(last.status_code = 302 ∨ last.status_code = 303) →
        followLoginRedirects cookies first (pre ++ [last])
          = some (last.url,
              { cookies with
                csrf := (pre ++ [last]).foldl csrfStep cookies.csrf },
              pre.length + 1)) := by
  constructor
  · intro cookies first hops h
    exact chase_stop cookies first hops h
  · intro cookies first last pre
    induction pre generalizing cookies first with
    | nil =>
      intro hf _ hl
      rw [List.nil_append, chase_step cookies first last [] hf,
          chase_stop _ last [] hl]
      simp
    | cons p ps ih =>
      intro hf hp hl
      rw [List.cons_append, chase_step cookies first p (ps ++ [last]) hf,
          ih _ p (hp p (by simp)) (fun r hr => hp r (by simp [hr])) hl]
      simp

/-- Witness for C4: a 302 followed by a 303 hop carrying the CSRF cookie
`"tok"` and a final 200 without it: the chase follows exactly two redirects,
returns the URL of the 200 and stores `"tok"`. -/
theorem redirect_chase_chain_witness :
    ((c4first.status_code = 302 ∨ c4first.status_code = 303) ∧
      (∀ r ∈ [c4mid], r.status_code = 302 ∨ r.status_code = 303) ∧
      ¬(c4last.status_code = 302 ∨ c4last.status_code = 303)) ∧
    followLoginRedirects { csrf := none, proxy := none } c4first
        ([c4mid] ++ [c4last])
      = some (c4last.url,
          { Cookies.mk none none with
            csrf := ([c4mid] ++ [c4last]).foldl csrfStep
              (Cookies.mk none none).csrf },
          [c4mid].length + 1) :=
  ⟨⟨by decide, by decide, by decide⟩,
   redirect_chase_chain.2 ⟨none, none⟩ c4first c4last [c4mid]
     (by decide) (by decide) (by decide)⟩

/-- Counterexample to C6 as stated: the host string `"foohttpsbar"` has no
protocol scheme (it does not even contain `"://"`), yet session construction
does not fail with a configuration error — the substring test
`"https" in host` matches and construction proceeds to the eager
`authenticate()`. -/
theorem host_without_scheme_not_config_error :
    isConfigError (initSession c6cfg srvOk) = false ∧
    pyIn "://" c6cfg.host = false := by
  constructor
  · decide
  · decide

/-- C6 as amended: scheme detection is by Python substring containment, not
by an actual scheme prefix.  The first conjunct is the exact
characterization: construction fails with a configuration error precisely
when the host contains neither `"https"` nor `"http:"` as a substring, or
contains `"http:"` but not `"https"` with a colon count different from two.
The remaining conjuncts name the error raised in each failing case and make
the two non-failing sides explicit: a host containing `"https"` anywhere
bypasses validation entirely (no configuration error for any server
behaviour), and an `"http:"` host with exactly two colons constructs
successfully. -/
theorem config_error_by_substring (cfg : ClusterConfig) (srv : LoginServer) :
    (isConfigError (initSession cfg srv) = true ↔
      pyIn "https" cfg.host = false ∧
        (pyIn "http:" cfg.host = false ∨
          (cfg.host.data.filter (fun c => c = ':')).length ≠ 2)) ∧
    (pyIn "https" cfg.host = false → pyIn "http:" cfg.host = false →
      initSession cfg srv = InitOutcome.noSchemeError) ∧
    (pyIn "https" cfg.host = false → pyIn "http:" cfg.host = true →
      (cfg.host.data.filter (fun c => c = ':')).length ≠ 2 →
      initSession cfg srv = InitOutcome.noPortError) ∧
    (pyIn "https" cfg.host = true →
      isConfigError (initSession cfg srv) = false) ∧
    (pyIn "https" cfg.host = false → pyIn "http:" cfg.host = true →
      (cfg.host.data.filter (fun c => c = ':')).length = 2 →
      initSession cfg srv = InitOutcome.ok initialState) := by
  cases h1 : pyIn "https" cfg.host with
  | true =>
    have hbypass : isConfigError (initSession cfg srv) = false := by
      unfold initSession
      simp only [h1, if_true]
      cases hA : authenticate initialState srv with
      | none => rfl
      | some outcome =>
        obtain ⟨err, st⟩ := outcome
        cases err <;> rfl
    refine ⟨?_, ?_, ?_, fun _ => hbypass, ?_⟩
    · simp [hbypass, h1]
    · simp [h1]
    · simp [h1]
    · simp [h1]
  | false =>
    cases h2 : pyIn "http:" cfg.host with
    | false =>
      have heq : initSession cfg srv = InitOutcome.noSchemeError := by
        unfold initSession
        simp [h1, h2]
      refine ⟨?_, fun _ _ => heq, ?_, ?_, ?_⟩
      · simp [heq, isConfigError, h2]
      · simp [h2]
      · simp [h1]
      · simp [h2]
    | true =>
      by_cases h3 : (cfg.host.data.filter (fun c => c = ':')).length = 2
      · have heq : initSession cfg srv = InitOutcome.ok initialState := by
          unfold initSession
          simp [h1, h2, h3]
        refine ⟨?_, ?_, ?_, ?_, fun _ _ _ => heq⟩
        · simp [heq, isConfigError, h2, h3]
        · simp [h2]
        · intro _ _ hx
          exact absurd h3 hx
        · simp [h1]
      · have heq : initSession cfg srv = InitOutcome.noPortError := by
          unfold initSession
          simp [h1, h2, h3]
        refine ⟨?_, ?_, fun _ _ _ => heq, ?_, ?_⟩
        · simp [heq, isConfigError, h2, h3]
        · simp [h2]
        · simp [h1]
        · intro _ _ hx
          exact absurd hx h3

/-- Witness for the amended C6: `"nakedhost"` produces the missing-protocol
error; `"http://10.0.0.1"` (one colon) produces the missing-port error;
`"foohttpsbar"` (containing `"https"`) satisfies the characterization with
no configuration error; `"http://10.0.0.1:5001"` (two colons) constructs
successfully. -/
theorem config_error_by_substring_witness :
    ((pyIn "https" c6cfgNone.host = false ∧ pyIn "http:" c6cfgNone.host = false) ∧
      initSession c6cfgNone srvOk = InitOutcome.noSchemeError) ∧
    ((pyIn "https" c6cfgNoPort.host = false ∧
        pyIn "http:" c6cfgNoPort.host = true ∧
        (c6cfgNoPort.host.data.filter (fun c => c = ':')).length ≠ 2) ∧
      initSession c6cfgNoPort srvOk = InitOutcome.noPortError) ∧
    (pyIn "https" c6cfg.host = true ∧
      isConfigError (initSession c6cfg srvOk) = false) ∧
    ((pyIn "https" c6cfgPort.host = false ∧
        pyIn "http:" c6cfgPort.host = true ∧
        (c6cfgPort.host.data.filter (fun c => c = ':')).length = 2) ∧
      initSession c6cfgPort srvOk = InitOutcome.ok initialState) :=
  ⟨⟨⟨by decide, by decide⟩,
    (config_error_by_substring c6cfgNone srvOk).2.1 (by decide) (by decide)⟩,
   ⟨⟨by decide, by decide, by decide⟩,
    (config_error_by_substring c6cfgNoPort srvOk).2.2.1
      (by decide) (by decide) (by decide)⟩,
   ⟨by decide,
    (config_error_by_substring c6cfg srvOk).2.2.2.1 (by decide)⟩,
   ⟨⟨by decide, by decide, by decide⟩,
    (config_error_by_substring c6cfgPort srvOk).2.2.2.2
      (by decide) (by decide) (by decide)⟩⟩

/-- Counterexample to C7 as stated: the fresh session carries
`Connection: keep-alive`, but after one successful `authenticate()` the
header overlay no longer contains any `Connection` entry — lines 99-100
clear the whole overlay and install only the login `Content-Type`, and
nothing ever restores the keep-alive directive. -/
theorem keep_alive_lost_after_authenticate :
    headersGet initialState.headers "Connection" = some "keep-alive" ∧
    (authenticate initialState srvOk).map
        (fun o => (o.err, headersGet o.state.headers "Connection"))
      = some (none, none) := by
  constructor
  · decide
  · decide

/-- C7 as amended: `Connection: keep-alive` is installed at construction and
is preserved by every `get_rest_response` call that does not trigger
re-authentication (the dispatcher only ever touches `Content-Type`), but it
persists only until the first `authenticate()` call: authentication clears
the overlay, replaces it with the login `Content-Type`, and never restores
the keep-alive entry. -/
theorem keep_alive_until_first_authenticate :
    headersGet initialState.headers "Connection" = some "keep-alive" ∧
    (∀ (s : SessionState) (srv : LoginServer) (o : AuthOutcome),
        authenticate s srv = some o →
        headersGet o.state.headers "Connection" = none) ∧
    (∀ (s : SessionState) (cfg : ClusterConfig) (srv : LoginServer)
        (r0 r1 : Response) (url method ct : String),
        expirySignal r0 = false →
        headersGet
            (get_rest_response s cfg srv r0 r1 url method ct).state.headers
            "Connection"
          = headersGet s.headers "Connection") := by
  refine ⟨by decide, ?_, ?_⟩
  · intro s srv o hA
    obtain ⟨u, cs, n, hc⟩ := authenticate_some_chase s srv o hA
    rw [authenticate_of_chase s srv u cs n hc] at hA
    cases hist : srv.postResponse.history.getLast? with
    | none =>
      rw [hist] at hA
      simp only [Option.some.injEq] at hA
      rw [← hA]
      rfl
    | some prev =>
      rw [hist] at hA
      simp only [Option.some.injEq] at hA
      rw [← hA]
      rfl
  · intro s cfg srv r0 r1 url method ct hexp
    unfold get_rest_response
    simp only [hexp, Bool.false_eq_true, if_false]
    exact setContentTypeHeaders_connection s.headers ct

/-- Witness for the amended C7: a successful `authenticate()` run ends with
no `Connection` header, and a dispatch with a non-expired 200 response
leaves the `Connection` lookup unchanged. -/
theorem keep_alive_until_first_authenticate_witness :
    ((authenticate initialState srvOk
        = some ⟨none, ⟨loginHeaders, ⟨none, some "ptok"⟩⟩⟩) ∧
      headersGet (AuthOutcome.mk none
          ⟨loginHeaders, ⟨none, some "ptok"⟩⟩).state.headers "Connection"
        = none) ∧
    (expirySignal resp200json = false ∧
      headersGet (get_rest_response initialState cfgW srvOk resp200json
            resp200json "projects" "GET" "json").state.headers "Connection"
        = headersGet initialState.headers "Connection") :=
  ⟨⟨by decide,
    keep_alive_until_first_authenticate.2.1 initialState srvOk
      ⟨none, ⟨loginHeaders, ⟨none, some "ptok"⟩⟩⟩ (by decide)⟩,
   ⟨by decide,
    keep_alive_until_first_authenticate.2.2 initialState cfgW srvOk
      resp200json resp200json "projects" "GET" "json" (by decide)⟩⟩

/-- C9: for every `contenttype` string outside the recognized set, the
`elif` chain of lines 138-147 falls through without touching the header
overlay — the `Content-Type` entry is neither set nor removed — and the
first request of `get_rest_response` is sent with the session headers
exactly as the previous call left them, so the `Content-Type` actually sent
depends on the history of earlier calls on the same session. -/
theorem unrecognized_contenttype_headers_frame (s : SessionState)
    (cfg : ClusterConfig) (srv : LoginServer) (r0 r1 : Response)
    (url method ct : String)
    (h : ct ∉ (["json", "jpeg", "multipart", "", "zip"] : List String)) :
    setContentTypeHeaders s.headers ct = s.headers ∧
    (get_rest_response s cfg srv r0 r1 url method ct).sent.head?.map
        (fun q => q.headers) = some s.headers := by
  have h1 : ¬ct = "json" := fun he => h (by simp [he])
  have h2 : ¬ct = "jpeg" := fun he => h (by simp [he])
  have h3 : ¬ct = "multipart" := fun he => h (by simp [he])
  have h4 : ¬ct = "" := fun he => h (by simp [he])
  have h5 : ¬ct = "zip" := fun he => h (by simp [he])
  have hset : setContentTypeHeaders s.headers ct = s.headers := by
    unfold setContentTypeHeaders
    simp [h1, h2, h3, h4, h5]
  refine ⟨hset, ?_⟩
  simp only [get_rest_response]
  rw [hset]
  by_cases hexp : expirySignal r0 = true
  · rw [if_pos hexp]
    cases hA : authenticate { headers := s.headers, cookies := s.cookies } srv with
    | none => rfl
    | some outcome =>
      obtain ⟨err, st⟩ := outcome
      cases err with
      | none => rfl
      | some e => rfl
  · rw [if_neg hexp]
    rfl

/-- Witness for C9: the unrecognized kind `"protobuf"` leaves the fresh
header overlay untouched and the first request goes out with exactly those
headers. -/
theorem unrecognized_contenttype_headers_frame_witness :
    ("protobuf" ∉ (["json", "jpeg", "multipart", "", "zip"] : List String)) ∧
    (setContentTypeHeaders initialState.headers "protobuf"
        = initialState.headers ∧
      (get_rest_response initialState cfgW srvOk resp200json resp200json
          "projects" "GET" "protobuf").sent.head?.map (fun q => q.headers)
        = some initialState.headers) :=
  ⟨by decide,
   unrecognized_contenttype_headers_frame initialState cfgW srvOk
     resp200json resp200json "projects" "GET" "protobuf" (by decide)⟩

/-- C1: when the first response signals an expired session (status 401/403
or an HTML content type) and the triggered `authenticate()` completes
without raising, the dispatcher invokes `authenticate()` exactly once,
resends the identical request parameters exactly once (two requests total,
agreeing on method, URL and payload kind), and hands the caller exactly the
classification of the retried response — the retried body on a 200 — with
no second re-authentication or resend regardless of the outcome of the
retry, which is universally quantified here. -/
theorem transparent_reauth_retry_once (s : SessionState)
    (cfg : ClusterConfig) (srv : LoginServer) (r0 r1 : Response)
    (url method ct : String) (o : AuthOutcome)
    (hexp : expirySignal r0 = true)
    (hA : authenticate { s with headers := setContentTypeHeaders s.headers ct }
      srv = some o)
    (hE : o.err = none) :
    (get_rest_response s cfg srv r0 r1 url method ct).authCalls = 1 ∧
    (get_rest_response s cfg srv r0 r1 url method ct).sent.map
        (fun q => (q.method, q.url, q.dataIsJson))
      = [(method, cfg.base_url ++
            (if url.startsWith API_PATTERN then url.drop API_PATTERN.length
             else url), ct == "json"),
         (method, cfg.base_url ++
            (if url.startsWith API_PATTERN then url.drop API_PATTERN.length
             else url), ct == "json")] ∧
    (get_rest_response s cfg srv r0 r1 url method ct).result
      = classifyResponse method
          (if url.startsWith API_PATTERN then url.drop API_PATTERN.length
           else url) r1 ∧
    (r1.status_code = 200 →
      (r1.contentType = some "application/json" → r1.jsonBody ≠ none) →
      isSuccessBody
        (get_rest_response s cfg srv r0 r1 url method ct).result = true) := by
  obtain ⟨err, st⟩ := o
  simp only at hE
  subst hE
  simp only [get_rest_response]
  rw [if_pos hexp, hA]
  refine ⟨rfl, rfl, rfl, ?_⟩
  intro h200 hdec
  have hstat : r1.status_code = 200 ∨ r1.status_code = 201 := Or.inl h200
  show isSuccessBody (classifyResponse method
      (if url.startsWith API_PATTERN then url.drop API_PATTERN.length
       else url) r1) = true
  unfold classifyResponse
  rw [if_pos hstat]
  by_cases hct : r1.contentType = some "application/json"
  · rw [if_pos hct]
    cases hj : r1.jsonBody with
    | none => exact absurd hj (hdec hct)
    | some j => rfl
  · rw [if_neg hct]
    rfl

/-- Witness for C1: a 403 first response followed by a 200 JSON retry on the
concrete server `srvOk`: one `authenticate()` call, two identical requests,
and the decoded 200 body returned. -/
theorem transparent_reauth_retry_once_witness :
    (expirySignal resp403 = true ∧
      authenticate { initialState with
          headers := setContentTypeHeaders initialState.headers "json" } srvOk
        = some ⟨none, ⟨loginHeaders, ⟨none, some "ptok"⟩⟩⟩ ∧
      (AuthOutcome.mk none ⟨loginHeaders, ⟨none, some "ptok"⟩⟩).err = none) ∧
    ((get_rest_response initialState cfgW srvOk resp403 resp200json
        "projects" "GET" "json").authCalls = 1 ∧
      (get_rest_response initialState cfgW srvOk resp403 resp200json
          "projects" "GET" "json").sent.map
          (fun q => (q.method, q.url, q.dataIsJson))
        = [("GET", cfgW.base_url ++
              (if "projects".startsWith API_PATTERN
               then "projects".drop API_PATTERN.length else "projects"),
             "json" == "json"),
           ("GET", cfgW.base_url ++
              (if "projects".startsWith API_PATTERN
               then "projects".drop API_PATTERN.length else "projects"),
             "json" == "json")] ∧
      (get_rest_response initialState cfgW srvOk resp403 resp200json
          "projects" "GET" "json").result
        = classifyResponse "GET"
            (if "projects".startsWith API_PATTERN
             then "projects".drop API_PATTERN.length else "projects")
            resp200json ∧
      (resp200json.status_code = 200 →
        (resp200json.contentType = some "application/json" →
          resp200json.jsonBody ≠ none) →
        isSuccessBody (get_rest_response initialState cfgW srvOk resp403
            resp200json "projects" "GET" "json").result = true)) :=
  ⟨⟨by decide, by decide, by decide⟩,
   transparent_reauth_retry_once initialState cfgW srvOk resp403 resp200json
     "projects" "GET" "json" ⟨none, ⟨loginHeaders, ⟨none, some "ptok"⟩⟩⟩
     (by decide) (by decide) (by decide)⟩

/-- C2: whenever the final response of a dispatch — the first response when
no expiry signal fires, the retried response when one does and the
re-authentication completes — has a status outside 200/201, the dispatcher
raises the request failure carrying the method, the (prefix-stripped) URL,
the JSON-decoded error body (`none` standing for the empty string
substituted when decoding fails) and the status code. -/
theorem request_failure_on_final_error (s : SessionState)
    (cfg : ClusterConfig) (srv : LoginServer) (r0 r1 : Response)
    (url method ct : String) (o : AuthOutcome) :
    (expirySignal r0 = false →
      ¬(r0.status_code = 200 ∨ r0.status_code = 201) →
      (get_rest_response s cfg srv r0 r1 url method ct).result
        = RestResult.requestFailure method
            (if url.startsWith API_PATTERN then url.drop API_PATTERN.length
             else url) r0.jsonBody r0.status_code) ∧
    (expirySignal r0 = true →
      authenticate { s with headers := setContentTypeHeaders s.headers ct }
        srv = some o →
      o.err = none →
      ¬(r1.status_code = 200 ∨ r1.status_code = 201) →
      (get_rest_response s cfg srv r0 r1 url method ct).result
        = RestResult.requestFailure method
            (if url.startsWith API_PATTERN then url.drop API_PATTERN.length
             else url) r1.jsonBody r1.status_code) := by
  constructor
  · intro hexp hbad
    simp only [get_rest_response]
    rw [if_neg (by simp [hexp])]
    show classifyResponse method _ r0 = _
    unfold classifyResponse
    rw [if_neg hbad]
  · intro hexp hA hE hbad
    obtain ⟨err, st⟩ := o
    simp only at hE
    subst hE
    simp only [get_rest_response]
    rw [if_pos hexp, hA]
    show classifyResponse method _ r1 = _
    unfold classifyResponse
    rw [if_neg hbad]

/-- Witness for C2: a final status 500 with JSON body with field
`detail = x` raises the request failure carrying exactly the method, the
path, that body and 500. -/
theorem request_failure_on_final_error_witness :
    (expirySignal resp500detail = false ∧
      ¬(resp500detail.status_code = 200 ∨ resp500detail.status_code = 201)) ∧
    (get_rest_response initialState cfgW srvOk resp500detail resp200json
        "projects" "GET" "json").result
      = RestResult.requestFailure "GET" "projects"
          (some (PyJson.obj [("detail", "x")])) 500 :=
  ⟨⟨by decide, by decide⟩,
   ((request_failure_on_final_error initialState cfgW srvOk resp500detail
       resp200json "projects" "GET" "json" ⟨none, initialState⟩).1
     (by decide) (by decide)).trans (by decide)⟩

end SCSessionModel
